import Mathlib

set_option autoImplicit false

namespace RTChat

/-!
Shallow embedding of the backend of the Real-Time-Chat-App repository.

Presence tracker (src/backend/src/lib/socket.js):
`userSocketMap` is a plain JS object mapping a user id to a socket id.
We embed it as an association list with unique keys; `setKey` models the
property assignment `userSocketMap[u] = s` (overwrite in place or append)
and `delKey` models `delete userSocketMap[u]`.
-/

abbrev PresenceMap := List (String × String)

/-- Property read `userSocketMap[u]` (used by `getReceiverSocketId`). -/
def lookup : PresenceMap → String → Option String
  | [], _ => none
  | (k, v) :: rest, u => if k = u then some v else lookup rest u

/-- Property assignment `userSocketMap[u] = s`: overwrite if present, append otherwise. -/
def setKey : PresenceMap → String → String → PresenceMap
  | [], u, s => [(u, s)]
  | (k, v) :: rest, u, s =>
      if k = u then (u, s) :: rest else (k, v) :: setKey rest u s

/-- Property deletion `delete userSocketMap[u]`: removes the entry for key `u`. -/
def delKey : PresenceMap → String → PresenceMap
  | [], _ => []
  | (k, v) :: rest, u =>
      if k = u then delKey rest u else (k, v) :: delKey rest u

/-- The payload of a broadcast, `Object.keys(userSocketMap)` (socket.js line 39 and 44). -/
def keys (m : PresenceMap) : List String := m.map Prod.fst

/--
JS property-key coercion for the bracket access `userSocketMap[userId]`:
the handshake query value `socket.handshake.query.userId` is a string when
present and `undefined` when absent, and an absent value is coerced to the
string "undefined" when used as a property key (socket.js line 43).
-/
def propKey : Option String → String
  | some u => u
  | none => "undefined"

/-- JS truthiness of the handshake query value: `undefined` and "" are falsy. -/
def truthy : Option String → Bool
  | some u => !u.isEmpty
  | none => false

/--
The connect half of the `io.on("connection")` handler (socket.js lines 29-39):
`if (userId) userSocketMap[userId] = socket.id;` followed by
`io.emit("getOnlineUsers", Object.keys(userSocketMap))`.
Returns the new map and the list of emitted broadcast payloads.
-/
def onConnect (m : PresenceMap) (userId : Option String) (socketId : String) :
    PresenceMap × List (List String) :=
  let m1 := if truthy userId then setKey m (propKey userId) socketId else m
  (m1, [keys m1])

/--
The `disconnect` handler of the same connection (socket.js lines 41-45):
`delete userSocketMap[userId]` (with `userId` captured by the closure at
connect time) followed by `io.emit("getOnlineUsers", Object.keys(userSocketMap))`.
The deletion is unconditional: the stored socket id is not compared with the
socket id of the disconnecting connection.
-/
def onDisconnect (m : PresenceMap) (userId : Option String) :
    PresenceMap × List (List String) :=
  let m1 := delKey m (propKey userId)
  (m1, [keys m1])

/-!
Data model (src/backend/src/models/user.models.js and the message schema):
a User document has _id, email, fullName, password (bcrypt hash), profilePic;
a Message document has senderId, receiverId, optional text and optional image.
Timestamps are irrelevant to the claims and omitted.
-/

structure User where
  _id : String
  fullName : String
  email : String
  password : String
  profilePic : String
  deriving Repr, DecidableEq

/-- A User document after `.select("-password")` or after the explicit
response shaping of the auth controllers: every field except the credential. -/
structure PublicUser where
  _id : String
  fullName : String
  email : String
  profilePic : String
  deriving Repr, DecidableEq

/-- Drop the password field, as `.select("-password")` does and as the
signup and login responses do by listing only the public fields. -/
def sanitize (u : User) : PublicUser :=
  { _id := u._id, fullName := u.fullName, email := u.email, profilePic := u.profilePic }

structure Message where
  senderId : String
  receiverId : String
  text : Option String
  image : Option String
  deriving Repr, DecidableEq

/-- `User.findOne({ email })`: the first stored user with the given email. -/
def findOne (store : List User) (email : String) : Option User :=
  store.find? (fun u => u.email == email)

/-- `User.findById(id)`: the first stored user with the given _id. -/
def findById (store : List User) (id : String) : Option User :=
  store.find? (fun u => u._id == id)

/-!
Message controllers (src/backend/src/controllers/message.controllers.js).
-/

/--
`getUsersForSidebar` (lines 25-52): `User.find({ _id: { $ne: loggedInUserId } })
.select("-password")` — every stored user whose _id differs from the caller,
with the password field removed.
-/
def getUsersForSidebar (store : List User) (loggedInUserId : String) : List PublicUser :=
  (store.filter (fun u => !(u._id == loggedInUserId))).map sanitize

/--
`getMessages` (lines 76-105): `Message.find` with
`$or: [{senderId: myId, receiverId: userToChatId}, {senderId: userToChatId, receiverId: myId}]`,
in natural store order.
-/
def getMessages (store : List Message) (myId userToChatId : String) : List Message :=
  store.filter (fun m =>
    (m.senderId == myId && m.receiverId == userToChatId) ||
    (m.senderId == userToChatId && m.receiverId == myId))

/-- Outcome of the sendMessage handler: a 201 with the created document, or
an error response. -/
inductive SendResult where
  | created (msg : Message)
  | error (status : Nat) (message : String)
  deriving Repr, DecidableEq

/--
`sendMessage` (lines 108-137). The only imports of message.controllers.js are
the User and Message models (lines 2-3): the identifier `cloudinary` used on
line 117 is unbound in the module, so whenever `image` is truthy the handler
throws a ReferenceError before anything is persisted, and the catch block
(lines 133-136) answers 500 "Internal server error". When `image` is falsy the
upload branch is skipped, `imageUrl` stays undefined, and the new Message is
persisted with the supplied fields.
-/
def sendMessage (store : List Message) (senderId receiverId : String)
    (text image : Option String) : SendResult × List Message :=
  if truthy image then
    (.error 500 "Internal server error", store)
  else
    let newMessage : Message :=
      { senderId := senderId, receiverId := receiverId, text := text, image := none }
    (.created newMessage, store ++ [newMessage])

/-!
Auth controllers (src/backend/src/controllers/auth.controllers.js).
External bcrypt is abstracted: `genSalt` and `hash` stand for
`bcrypt.genSalt(10)` / `bcrypt.hash`, and `compare` for `bcrypt.compare`.
-/

/-- Outcome of the login handler: 200 with the public user payload, or an
error response with status and message. -/
inductive LoginResult where
  | ok (user : PublicUser)
  | err (status : Nat) (message : String)
  deriving Repr, DecidableEq

/--
`login` (lines 86-125): `User.findOne({ email })`; a missing user answers
400 "Invalid credentials"; a failed `bcrypt.compare(password, user.password)`
answers the same 400 "Invalid credentials"; otherwise a token cookie is set
and the public fields are returned.
-/
def login (compare : String → String → Bool) (store : List User)
    (email password : String) : LoginResult :=
  match findOne store email with
  | none => .err 400 "Invalid credentials"
  | some user =>
      if compare password user.password then .ok (sanitize user)
      else .err 400 "Invalid credentials"

/-- Outcome of the signup handler: a 201 with the public user payload, or an
error response. -/
inductive SignupResult where
  | created (user : PublicUser)
  | err (status : Nat) (message : String)
  deriving Repr, DecidableEq

/--
`signup` (lines 15-74). Body fields are JS values: absent (`none`) or a string,
and `!field` is true for an absent or empty string. Checks in source order:
missing field → 400 "All fields are required"; `password.length < 6` →
400 "Password must be at least 6 characters"; `User.findOne({ email })` hit →
400 "Email already exists"; otherwise the user is saved with
`password: bcrypt.hash(password, bcrypt.genSalt(10))` and the public fields
are returned with status 201. (`new User(...)` never yields a falsy value,
so the `!newUser` branch on line 50 is unreachable and not modelled.)
The generated Mongo _id is the `newId` parameter. Returns the response and
the store after the handler.
-/
def signup (genSalt : Nat → String) (hash : String → String → String)
    (store : List User) (fullName email password : Option String)
    (newId : String) : SignupResult × List User :=
  match fullName, email, password with
  | some fn, some em, some pw =>
      if fn.isEmpty || em.isEmpty || pw.isEmpty then
        (.err 400 "All fields are required", store)
      else if pw.length < 6 then
        (.err 400 "Password must be at least 6 characters", store)
      else
        match findOne store em with
        | some _ => (.err 400 "Email already exists", store)
        | none =>
            let newUser : User :=
              { _id := newId, fullName := fn, email := em,
                password := hash pw (genSalt 10), profilePic := "" }
            (.created (sanitize newUser), store ++ [newUser])
  | _, _, _ => (.err 400 "All fields are required", store)

/-!
Auth middleware (src/backend/src/middleware/auth.middleware.js).
-/

/-- Outcome of `jwt.verify(token, secret)`: it returns the decoded payload
(here its userId field) or throws (invalid signature, malformed or expired
token). The returned payload object is always truthy, so the
`if (!decoded)` branch on line 30 is unreachable. -/
inductive JwtResult where
  | payload (userId : String)
  | threw
  deriving Repr, DecidableEq

/-- Outcome of the protectRoute middleware: an error response, or control
passed on with the sanitized user attached to the request. -/
inductive AuthOutcome where
  | resp (status : Nat) (message : String)
  | next (user : PublicUser)
  deriving Repr, DecidableEq

/--
`protectRoute` (lines 14-54): a falsy `req.cookies.jwt` answers
401 "Unauthorized - No Token Provided"; a `jwt.verify` throw lands in the
catch block (lines 49-53) which answers 500 "Internal Server Error"; a decoded
userId absent from the store answers 404 "User not found"; otherwise the user
(password stripped) is attached and control passes on.
-/
def protectRoute (verify : String → JwtResult) (store : List User)
    (token : Option String) : AuthOutcome :=
  if truthy token then
    match token with
    | some t =>
        match verify t with
        | .threw => .resp 500 "Internal Server Error"
        | .payload userId =>
            match findById store userId with
            | none => .resp 404 "User not found"
            | some user => .next (sanitize user)
    | none => .resp 401 "Unauthorized - No Token Provided"
  else
    .resp 401 "Unauthorized - No Token Provided"

/-- A sample verification oracle for concrete evaluations: one valid token. -/
def sampleVerify : String → JwtResult :=
  fun t => if t = "good" then .payload "u1" else .threw

/-- A sample bcrypt-compare oracle for concrete evaluations. -/
def sampleCompare : String → String → Bool :=
  fun plain stored => stored == "salt" ++ plain

/-- A sample stored user for concrete evaluations. -/
def annUser : User :=
  { _id := "u1", fullName := "Ann", email := "ann@x.com",
    password := "saltsecret1", profilePic := "" }

/-- A sample salt generator standing for `bcrypt.genSalt` in evaluations. -/
def sampleSalt : Nat → String := fun _ => "salt"

/-- A sample salted hash standing for `bcrypt.hash` in evaluations. -/
def sampleHash : String → String → String := fun plain s => s ++ plain

/-!
Helper lemmas about the presence map.
-/

theorem lookup_delKey_self (m : PresenceMap) (u : String) :
    lookup (delKey m u) u = none := by
  induction m with
  | nil => rfl
  | cons p rest ih =>
      obtain ⟨k0, v⟩ := p
      by_cases h : k0 = u
      · simpa [delKey, h] using ih
      · simpa [delKey, lookup, h] using ih

theorem lookup_delKey_ne (m : PresenceMap) (k u : String) (h : u ≠ k) :
    lookup (delKey m k) u = lookup m u := by
  induction m with
  | nil => rfl
  | cons p rest ih =>
      obtain ⟨k0, v⟩ := p
      by_cases hp : k0 = k
      · subst hp
        have hku : ¬ k0 = u := fun hc => h hc.symm
        simp [delKey, lookup, hku, ih]
      · by_cases hq : k0 = u
        · simp [delKey, hp, lookup, hq, h]
        · simp [delKey, hp, lookup, hq, ih]

theorem not_mem_keys_delKey (m : PresenceMap) (u : String) :
    (u ∈ keys (delKey m u)) ↔ False := by
  simp only [iff_false]
  induction m with
  | nil => simp [delKey, keys]
  | cons p rest ih =>
      obtain ⟨k0, v⟩ := p
      by_cases h : k0 = u
      · simpa [delKey, h] using ih
      · intro hc
        rcases (by simpa [delKey, keys, h] using hc : u = k0 ∨ u ∈ keys (delKey rest u)) with
          h1 | h2
        · exact h h1.symm
        · exact ih h2

/--
C1 (counterexample): user "U" registers under connection "C1", re-registers
under "C2", and then the first connection disconnects. The claim says the
mapping of "U" to "C2" is left in place; in the code the disconnect handler
deletes the entry of "U" unconditionally, so the fresh mapping is erased.
-/
theorem c1_stale_disconnect_erases_fresh_mapping :
    lookup (onDisconnect (onConnect (onConnect [] (some "U") "C1").1
      (some "U") "C2").1 (some "U")).1 "U" = none
    ∧ ((lookup (onDisconnect (onConnect (onConnect [] (some "U") "C1").1
      (some "U") "C2").1 (some "U")).1 "U" = some "C2") ↔ False) := by
  exact ⟨rfl, by decide⟩

/--
C1 (amended): the disconnect handler removes the presence entry of the
captured user of the connection unconditionally — `delete userSocketMap[userId]`
never compares the stored socket id with the disconnecting socket id — so
after the disconnect of any connection captured for user `u`, `u` has no
mapping at all, whatever connection id was stored for `u`.
-/
theorem c1_unregister_is_unconditional (m : PresenceMap) (u : String) :
    lookup (onDisconnect m (some u)).1 u = none :=
  lookup_delKey_self m u

/--
C2: each connect and each disconnect event emits exactly one broadcast, and
its payload is exactly the key set of the presence map after the transition;
in particular the single broadcast emitted by a disconnect no longer contains
the disconnected user.
-/
theorem c2_broadcast_per_transition (m : PresenceMap) (uid : Option String)
    (sid : String) :
    (onConnect m uid sid).2 = [keys (onConnect m uid sid).1]
    ∧ (onDisconnect m uid).2 = [keys (onDisconnect m uid).1]
    ∧ ((propKey uid ∈ keys (onDisconnect m uid).1) ↔ False) :=
  ⟨rfl, rfl, not_mem_keys_delKey m (propKey uid)⟩

/--
C10 (counterexample): a user registered under the literal identifier
"undefined" (its handshake query string was the text "undefined", which is
truthy). An anonymous connection — handshake query absent — then connects,
leaving the map unchanged, and disconnects. The disconnect runs
`delete userSocketMap[userId]` with `userId` undefined, which deletes the
property keyed "undefined": the registered entry of that user is erased,
contradicting the claim that all registered entries remain unchanged.
-/
theorem c10_anonymous_disconnect_deletes_undefined_key :
    (onConnect [] (some "undefined") "S1").1 = [("undefined", "S1")]
    ∧ (onConnect [("undefined", "S1")] none "S2").1 = [("undefined", "S1")]
    ∧ (onDisconnect [("undefined", "S1")] none).1 = []
    ∧ ((lookup (onDisconnect [("undefined", "S1")] none).1 "undefined"
        = some "S1") ↔ False) := by
  refine ⟨rfl, rfl, rfl, ?_⟩
  decide

/--
C10 (amended): a connection whose handshake carries no user identifier
creates no presence entry and still triggers a broadcast of the current key
set; its later disconnect leaves the entry of every registered user unchanged,
except a user registered under the literal identifier "undefined", whose
entry is deleted because the absent identifier is coerced to that property
key by the bracket access.
-/
theorem c10_anonymous_connection_frame (m : PresenceMap) (sid u : String)
    (h : u ≠ "undefined") :
    (onConnect m none sid).1 = m
    ∧ (onConnect m none sid).2 = [keys m]
    ∧ lookup (onDisconnect m none).1 u = lookup m u :=
  ⟨rfl, rfl, lookup_delKey_ne m "undefined" u h⟩

/--
C10 (witness for the amended theorem): concrete instance with a registered
user "A" and an anonymous connection "S9".
-/
theorem c10_anonymous_connection_frame_witness :
    (onConnect [("A", "S1")] none "S9").1 = [("A", "S1")]
    ∧ (onConnect [("A", "S1")] none "S9").2 = [keys [("A", "S1")]]
    ∧ lookup (onDisconnect [("A", "S1")] none).1 "A" = lookup [("A", "S1")] "A" :=
  c10_anonymous_connection_frame [("A", "S1")] "S9" "A" (by decide)

/--
C5: getMessages is symmetric in its two user arguments, and a message is in
its result exactly when it is stored and its sender and receiver pair is
(A, B) or (B, A).
-/
theorem c5_getMessages_symmetric_and_complete (store : List Message)
    (A B : String) (msg : Message) :
    getMessages store A B = getMessages store B A
    ∧ (msg ∈ getMessages store A B ↔
        msg ∈ store ∧ ((msg.senderId = A ∧ msg.receiverId = B)
          ∨ (msg.senderId = B ∧ msg.receiverId = A))) := by
  constructor
  · unfold getMessages
    apply List.filter_congr
    intro m _
    cases hsa : m.senderId == A <;> cases hsb : m.senderId == B <;>
      cases hra : m.receiverId == A <;> cases hrb : m.receiverId == B <;>
      simp [hsa, hsb, hra, hrb]
  · simp [getMessages, List.mem_filter, and_comm]

/--
C8: a record is in the sidebar list exactly when it is the sanitized form of
a stored user whose identifier differs from the caller, and sanitization is
oblivious to the credential field: the returned records carry no password.
-/
theorem c8_sidebar_excludes_self_and_credentials (store : List User)
    (selfId : String) (pu : PublicUser) (u0 : User) (p1 p2 : String) :
    (pu ∈ getUsersForSidebar store selfId ↔
      ∃ u, u ∈ store ∧ u._id ≠ selfId ∧ pu = sanitize u)
    ∧ sanitize { u0 with password := p1 } = sanitize { u0 with password := p2 } := by
  constructor
  · simp only [getUsersForSidebar, List.mem_map, List.mem_filter]
    constructor
    · rintro ⟨u, ⟨hu, hne⟩, hpu⟩
      refine ⟨u, hu, ?_, hpu.symm⟩
      simpa using hne
    · rintro ⟨u, hu, hne, hpu⟩
      exact ⟨u, ⟨hu, by simpa using hne⟩, hpu.symm⟩
  · rfl

/--
C3 (evaluation at the failing input): because the identifier `cloudinary` is
unbound in message.controllers.js, any request supplying an image — with or
without text — answers 500 "Internal server error" and persists nothing,
while a text-only request persists exactly the supplied fields.
-/
theorem c3_sendMessage_image_raises_reference_error :
    sendMessage [] "A" "B" (some "hi") (some "data:image/png;base64,AA")
      = (.error 500 "Internal server error", [])
    ∧ sendMessage [] "A" "B" none (some "data:image/png;base64,AA")
      = (.error 500 "Internal server error", [])
    ∧ sendMessage [] "A" "B" (some "hi") none
      = (.created { senderId := "A", receiverId := "B",
                    text := some "hi", image := none },
         [{ senderId := "A", receiverId := "B",
            text := some "hi", image := none }]) :=
  ⟨rfl, rfl, rfl⟩

/--
C4 (evaluation at the failing input): a request whose jwt cookie holds a
token that fails verification (expired, malformed or badly signed) is
answered 500 "Internal Server Error" — `jwt.verify` throws and the generic
catch block handles it, the 401 "Unauthorized - Invalid Token" branch being
unreachable — while an absent token is answered 401 and a token whose decoded
identity is absent from the store is answered 404.
-/
theorem c4_invalid_token_answered_500 :
    protectRoute sampleVerify [annUser] (some "expired.or.garbage")
      = .resp 500 "Internal Server Error"
    ∧ protectRoute sampleVerify [annUser] none
      = .resp 401 "Unauthorized - No Token Provided"
    ∧ protectRoute sampleVerify [] (some "good")
      = .resp 404 "User not found"
    ∧ protectRoute sampleVerify [annUser] (some "good")
      = .next (sanitize annUser) := by
  refine ⟨?_, rfl, ?_, ?_⟩ <;> decide

/--
C6: login succeeds exactly when a user with the supplied email is stored and
the bcrypt comparison of the supplied password against the stored hash
succeeds; both the unknown-email failure and the wrong-password failure
answer the identical 400 "Invalid credentials".
-/
theorem c6_login_iff_and_uniform_error (compare : String → String → Bool)
    (store : List User) (email pw : String) :
    ((∃ u, findOne store email = some u ∧ compare pw u.password = true)
      ↔ ∃ pu, login compare store email pw = .ok pu)
    ∧ (findOne store email = none →
        login compare store email pw = .err 400 "Invalid credentials")
    ∧ (∀ u, findOne store email = some u → compare pw u.password = false →
        login compare store email pw = .err 400 "Invalid credentials") := by
  cases h : findOne store email with
  | none =>
      exact ⟨by simp [login, h], fun _ => by simp [login, h], fun u hu => nomatch hu⟩
  | some u0 =>
      refine ⟨?_, ?_, ?_⟩
      · constructor
        · rintro ⟨u, hu, hcmp⟩
          obtain rfl : u0 = u := Option.some.inj hu
          exact ⟨sanitize u0, by simp [login, h, hcmp]⟩
        · rintro ⟨pu, hpu⟩
          by_cases hcmp : compare pw u0.password
          · exact ⟨u0, rfl, hcmp⟩
          · simp [login, h, hcmp] at hpu
      · exact fun hc => nomatch hc
      · intro u hu hcmp
        obtain rfl : u0 = u := Option.some.inj hu
        simp [login, h, hcmp]

/--
C6 (witness): with the sample store holding only Ann, an unknown email and a
wrong password both answer 400 "Invalid credentials".
-/
theorem c6_login_witness :
    login sampleCompare [annUser] "nobody@x.com" "secret1"
      = .err 400 "Invalid credentials"
    ∧ login sampleCompare [annUser] "ann@x.com" "wrong"
      = .err 400 "Invalid credentials" :=
  ⟨(c6_login_iff_and_uniform_error sampleCompare [annUser] "nobody@x.com"
      "secret1").2.1 (by decide),
   (c6_login_iff_and_uniform_error sampleCompare [annUser] "ann@x.com"
      "wrong").2.2 annUser (by decide) (by decide)⟩

/--
C7: signup answers 400 "All fields are required" with the store unchanged
when fullName, email or password is absent; 400 with the password-length
message and the store unchanged when the supplied password is shorter than
six characters; and 400 "Email already exists" with the store unchanged when
a user with the supplied email is already stored.
-/
theorem c7_signup_failures_persist_nothing (g : Nat → String)
    (hashF : String → String → String) (store : List User)
    (fnO emO pwO : Option String) (fn em pw newId : String) :
    signup g hashF store none emO pwO newId
      = (.err 400 "All fields are required", store)
    ∧ signup g hashF store fnO none pwO newId
      = (.err 400 "All fields are required", store)
    ∧ signup g hashF store fnO emO none newId
      = (.err 400 "All fields are required", store)
    ∧ (fn.isEmpty = false → em.isEmpty = false → pw.isEmpty = false →
        pw.length < 6 →
        signup g hashF store (some fn) (some em) (some pw) newId
          = (.err 400 "Password must be at least 6 characters", store))
    ∧ (fn.isEmpty = false → em.isEmpty = false → pw.isEmpty = false →
        ¬ pw.length < 6 → (∃ u0, findOne store em = some u0) →
        signup g hashF store (some fn) (some em) (some pw) newId
          = (.err 400 "Email already exists", store)) := by
  refine ⟨?_, ?_, ?_, ?_, ?_⟩
  · cases emO <;> cases pwO <;> rfl
  · cases fnO <;> cases pwO <;> rfl
  · cases fnO <;> cases emO <;> rfl
  · intro h1 h2 h3 h4
    simp [signup, h1, h2, h3, h4]
  · rintro h1 h2 h3 h4 ⟨u0, hu⟩
    simp [signup, h1, h2, h3, h4, hu]

/--
C7 (witness): a short password and a duplicate email are both rejected with
status 400, leaving the store as it was.
-/
theorem c7_signup_failures_witness :
    signup sampleSalt sampleHash [annUser]
      (some "Ann") (some "b@x.com") (some "abc") "u2"
      = (.err 400 "Password must be at least 6 characters", [annUser])
    ∧ signup sampleSalt sampleHash [annUser]
      (some "Ann") (some "ann@x.com") (some "secret1") "u2"
      = (.err 400 "Email already exists", [annUser]) :=
  ⟨(c7_signup_failures_persist_nothing sampleSalt sampleHash [annUser]
      none none none "Ann" "b@x.com" "abc" "u2").2.2.2.1
      (by decide) (by decide) (by decide) (by decide),
   (c7_signup_failures_persist_nothing sampleSalt sampleHash [annUser]
      none none none "Ann" "ann@x.com" "secret1" "u2").2.2.2.2
      (by decide) (by decide) (by decide) (by decide) ⟨annUser, by decide⟩⟩

/--
C9: a successful signup appends exactly one record, whose stored credential
is the salted hash of the supplied password — the hash function applied to
the password and a fresh `genSalt 10` salt — and, whenever that hash output
differs from the plaintext (as every bcrypt digest does), the stored
credential is not the plaintext password.
-/
theorem c9_signup_persists_hash_not_plaintext (g : Nat → String)
    (hashF : String → String → String) (store : List User)
    (fn em pw newId : String)
    (h1 : fn.isEmpty = false) (h2 : em.isEmpty = false) (h3 : pw.isEmpty = false)
    (h4 : ¬ pw.length < 6) (h5 : findOne store em = none)
    (h6 : hashF pw (g 10) ≠ pw) :
    (signup g hashF store (some fn) (some em) (some pw) newId).2
      = store ++ [{ _id := newId, fullName := fn, email := em,
                    password := hashF pw (g 10), profilePic := "" }]
    ∧ ∀ u, u ∈ (signup g hashF store (some fn) (some em) (some pw) newId).2 →
        u ∉ store → u.password = hashF pw (g 10) ∧ u.password ≠ pw := by
  have hstore : (signup g hashF store (some fn) (some em) (some pw) newId).2
      = store ++ [{ _id := newId, fullName := fn, email := em,
                    password := hashF pw (g 10), profilePic := "" }] := by
    simp [signup, h1, h2, h3, h4, h5]
  refine ⟨hstore, ?_⟩
  intro u hu hnot
  rw [hstore] at hu
  rcases List.mem_append.mp hu with hin | hnew
  · exact absurd hin hnot
  · obtain rfl := List.mem_singleton.mp hnew
    exact ⟨rfl, h6⟩

/--
C9 (witness): concrete successful signup with the sample salted hash; the
persisted credential is the hash output, not the plaintext.
-/
theorem c9_signup_witness :
    (signup sampleSalt sampleHash [] (some "Ann") (some "a@x.com")
        (some "secret1") "u9").2
      = [] ++ [{ _id := "u9", fullName := "Ann", email := "a@x.com",
                 password := sampleHash "secret1" (sampleSalt 10),
                 profilePic := "" }] :=
  (c9_signup_persists_hash_not_plaintext sampleSalt sampleHash []
    "Ann" "a@x.com" "secret1" "u9"
    (by decide) (by decide) (by decide) (by decide) (by decide) (by decide)).1

end RTChat
